import Mathlib

/-!
# Verification of the paper-search MCP server (src/server.ts)

Shallow embedding of the server's SSE broadcast transport, backend registry,
HTTP router and tools/call dispatch engine, together with theorems settling
the specification claims about them.

Conventions of the embedding:
* JavaScript values flowing through the unvalidated `args` object are modelled
  by `JsonValue` (with an `undefined` constructor, since destructuring defaults
  apply exactly to `undefined`).
* Exceptions are modelled by `Except String`; a `try`/`catch` is a `match`.
* Backend searcher instances (whose sources live outside this repository) are
  opaque: they are identified by the instance-variable name used in
  `initializeSearchers`, and their behaviour is a `BackendEnv` parameter.
  Invocations of backend operations are recorded in a `BackendOp` log so that
  "no backend is touched" style claims are statable.
* `JSON.stringify` of opaque backend data is modelled by a simple list
  serializer `jsonArr`; no claim depends on the exact rendering.
-/

namespace PaperMcp

/-- A JavaScript/JSON value as it flows through the untyped `args` object.
`undefined` is distinct from `null`: destructuring defaults fire on
`undefined` only.  Arrays are restricted to string arrays, which covers every
array-typed parameter in the tool catalog (`fieldsOfStudy`,
`publicationType`); no tool takes nested objects. -/
inductive JsonValue where
  | str (s : String)
  | num (n : Int)
  | bool (b : Bool)
  | strArr (xs : List String)
  | null
  | undefined
deriving DecidableEq

/-- JavaScript truthiness of a value (used by `if (downloadPdf && paper.pdfUrl)`
and similar guards in the handler). -/
def JsonValue.truthy : JsonValue → Bool
  | .str s => s ≠ ""
  | .num n => n ≠ 0
  | .bool b => b
  | .strArr _ => true
  | .null => false
  | .undefined => false

/-- Template-literal rendering of a value (JavaScript string coercion), used
where the source interpolates a parameter into a message. -/
def JsonValue.display : JsonValue → String
  | .str s => s
  | .num n => toString n
  | .bool b => if b then "true" else "false"
  | .strArr xs => String.intercalate "," xs
  | .null => "null"
  | .undefined => "undefined"

/-- The `arguments` object of a tools/call request: property map. -/
def Args := List (String × JsonValue)

/-- A JavaScript object literal, used for the option objects the handler
builds and passes to a backend operation. -/
def JsObject := List (String × JsonValue)
deriving DecidableEq

/-- Property read `args.k`: absent properties read as `undefined`. -/
def getArg (args : Args) (k : String) : JsonValue :=
  match args.find? (fun p => p.1 == k) with
  | some p => p.2
  | none => .undefined

/-- Destructuring with a default, `const \x7b k = d \x7d = args`: the default
applies exactly when the property is `undefined`. -/
def getArgD (args : Args) (k : String) (d : JsonValue) : JsonValue :=
  match getArg args k with
  | .undefined => d
  | v => v

/-! ## SSE broadcast transport (class SSETransport, server.ts lines 49-129)

Connections are identified by `Nat` handles; the open-connection `Set` is a
list in insertion order (JS `Set` iterates in insertion order).  A write to a
connection (`res.write`) may throw; its behaviour is a function parameter
`write` returning `Except`. -/

/-- State of `class SSETransport`: the open-connection set and the pending
message queue. -/
structure SSETransport where
  sseConnections : List Nat
  messageQueue : List String
deriving DecidableEq

/-- Freshly-constructed transport: empty connection set, empty queue. -/
def SSETransport.init : SSETransport := ⟨[], []⟩

/-- The fan-out loop of `send`: iterate the connection set in order; each
write is wrapped in its own try/catch, and a throwing connection is deleted
from the set while the loop continues (JS `Set.delete` during iteration).
Returns the surviving connection list and the list of connections the message
was written to. -/
def sendLoop (write : Nat → Except String Unit) :
    List Nat → List Nat × List Nat
  | [] => ([], [])
  | c :: rest =>
    match write c with
    | .ok _ =>
      let (conns, delivered) := sendLoop write rest
      (c :: conns, c :: delivered)
    | .error _ =>
      let (conns, delivered) := sendLoop write rest
      (conns, delivered)

/-- Method `SSETransport.send` (lines 77-97): with a non-empty connection set, write
the message to every open connection with per-connection error isolation;
with an empty set, append the message to the queue.  Returns the new state
and the connections that received the message.  Totality of this function is
the model of "never raises through the caller". -/
def SSETransport.send (t : SSETransport) (write : Nat → Except String Unit)
    (message : String) : SSETransport × List Nat :=
  if t.sseConnections.length > 0 then
    let (conns, delivered) := sendLoop write t.sseConnections
    ({ t with sseConnections := conns }, delivered)
  else
    ({ t with messageQueue := t.messageQueue ++ [message] }, [])

/-- The replay loop of `addSSEConnection` (lines 113-120): each queued message
is written inside its own try/catch; a failure is only logged, the message is
dropped and the loop continues.  Returns the messages actually written. -/
def replayQueue (write : String → Except String Unit) :
    List String → List String
  | [] => []
  | m :: rest =>
    match write m with
    | .ok _ => m :: replayQueue write rest
    | .error _ => replayQueue write rest

/-- Method `SSETransport.addSSEConnection` (lines 108-128): add the connection to the
set (JS `Set.add`: no duplicate), replay the whole queue to it with
per-message error isolation, then clear the queue.  Returns the new state and
the queued messages delivered to the new connection. -/
def SSETransport.addSSEConnection (t : SSETransport)
    (write : String → Except String Unit) (c : Nat) :
    SSETransport × List String :=
  let conns := if c ∈ t.sseConnections then t.sseConnections
               else t.sseConnections ++ [c]
  let delivered := replayQueue write t.messageQueue
  (⟨conns, []⟩, delivered)

/-- Whether a per-connection write succeeds, as a boolean. -/
def writeOk (write : Nat → Except String Unit) (c : Nat) : Bool :=
  match write c with
  | .ok _ => true
  | .error _ => false

/-- Whether a per-message replay write succeeds, as a boolean. -/
def replayOk (write : String → Except String Unit) (m : String) : Bool :=
  match write m with
  | .ok _ => true
  | .error _ => false

/-- Folding `send` over a list of messages, keeping only the state (the
delivery logs of the individual sends are dropped). -/
def sendAll (t : SSETransport) (write : Nat → Except String Unit)
    (ms : List String) : SSETransport :=
  ms.foldl (fun t m => (SSETransport.send t write m).1) t

/-! ## Backend registry (initializeSearchers, server.ts lines 150-214)

The searcher classes live outside this repository; an instance is identified
by the local-variable name used in `initializeSearchers`.  The registry is
the `searchers` object: an insertion-ordered map from platform key to
instance, including the two alias keys `wos` and `scholar`. -/

/-- The registry object built by `initializeSearchers` (lines 194-210), as an
insertion-ordered association list from platform key to instance identity.
The keys `wos` and `scholar` are aliases: they map to the same instances as
`webofscience` and `googlescholar`. -/
def builtSearchers : List (String × String) :=
  [("arxiv", "arxivSearcher"),
   ("webofscience", "wosSearcher"),
   ("pubmed", "pubmedSearcher"),
   ("wos", "wosSearcher"),
   ("biorxiv", "biorxivSearcher"),
   ("medrxiv", "medrxivSearcher"),
   ("semantic", "semanticSearcher"),
   ("iacr", "iacrSearcher"),
   ("googlescholar", "googleScholarSearcher"),
   ("scholar", "googleScholarSearcher"),
   ("scihub", "sciHubSearcher"),
   ("sciencedirect", "scienceDirectSearcher"),
   ("springer", "springerSearcher"),
   ("wiley", "wileySearcher"),
   ("scopus", "scopusSearcher")]

/-- Function `initializeSearchers` (lines 169-214) over the module-level mutable
variable `searchers : ... | null`, modelled by explicit state passing.  The
returned `Bool` instruments whether the construction block ran on this call.
`if (searchers) return searchers` short-circuits when already built. -/
def initializeSearchers :
    Option (List (String × String)) →
    (List (String × String)) × Option (List (String × String)) × Bool
  | some s => (s, some s, false)
  | none => (builtSearchers, some builtSearchers, true)

/-- Keys `Object.keys(currentSearchers)` in insertion order. -/
def searcherKeys : List String := builtSearchers.map Prod.fst

/-- Registry lookup `currentSearchers[v]` for the (unvalidated) platform value
`v`: only string keys present in the object resolve; any other value yields
`undefined` (`none`). -/
def lookupSearcher : JsonValue → Option String
  | .str s => (builtSearchers.find? (fun p => p.1 == s)).map Prod.snd
  | _ => none

/-- The non-alias platform list of the `search_papers` `platform: 'all'`
branch (line 855): `Object.keys(currentSearchers).filter(name => name !==
'wos' && name !== 'scholar')`. -/
def availablePlatforms : List String :=
  searcherKeys.filter (fun n => n != "wos" && n != "scholar")

/-! ## Backend capability interface

The behaviour of the (external) searcher instances is a parameter of the
dispatch engine.  Every backend operation the handler awaits is recorded in
a `BackendOp` log; pure reads (`getCapabilities`, `hasApiKey`,
`getRateLimiterStatus`, `getMirrorStatus`, `getBaseUrl`) perform no network
interaction and are not logged. -/

/-- A paper as the dispatch engine sees it: its `PaperFactory.toDict`
rendering (opaque) and its `pdfUrl` field (inspected by `search_scihub`). -/
structure Paper where
  dict : String
  pdfUrl : JsonValue
deriving DecidableEq

/-- The capability record returned by `getCapabilities()`. -/
structure Capabilities where
  download : Bool
  requiresApiKey : Bool
deriving DecidableEq

/-- One awaited backend operation, by instance identity.  The `options`
argument of `search` is `none` when the method is called without an options
argument (`search_scihub` does this). -/
inductive BackendOp where
  | search (inst : String) (query : JsonValue) (options : Option JsObject)
  | getPaperByDoi (inst : String) (doi : JsonValue)
  | downloadPdf (inst : String) (paperId : JsonValue) (options : JsObject)
  | validateApiKey (inst : String)
  | forceHealthCheck (inst : String)
deriving DecidableEq

/-- Behaviour of the external collaborators of the dispatch engine: the
searcher instances (keyed by instance identity), `process.env`, and the
ambient `Math.random()` draw of the `search_papers` all-platforms branch
(`randomIndex` is the value of `Math.floor(Math.random() *
availablePlatforms.length)`). -/
structure BackendEnv where
  search : String → JsonValue → Option JsObject → Except String (List Paper)
  getPaperByDoi : String → JsonValue → Except String (Option Paper)
  downloadPdf : String → JsonValue → JsObject → Except String String
  validateApiKey : String → Except String Bool
  forceHealthCheck : Except String Unit
  hasApiKey : String → Bool
  capabilities : String → Capabilities
  envVars : String → Option String
  mirrorStatuses : List String
  rateAvailable : String → Int
  rateMax : String → Int
  randomIndex : Nat

/-- Truthiness of `process.env.K` (an absent variable and the empty string
are both falsy in `if (!process.env.K)`). -/
def envTruthy (env : BackendEnv) (k : String) : Bool :=
  match env.envVars k with
  | none => false
  | some s => s ≠ ""

/-- Model of `JSON.stringify` on a list of already-rendered items. -/
def jsonArr (xs : List String) : String :=
  "[" ++ String.intercalate "," xs ++ "]"

/-! ## Tool catalog (const TOOLS, server.ts lines 345-773)

The declared JSON-schema of each tool, as advertised by `tools/list`. -/

/-- The `type` field of a declared property schema. -/
inductive JsonType where
  | string
  | number
  | boolean
  | array
deriving DecidableEq

/-- One entry of a tool's `inputSchema.properties`. -/
structure PropSchema where
  key : String
  jtype : JsonType
  enums : Option (List String) := none
  minimum : Option Int := none
  maximum : Option Int := none
deriving DecidableEq

/-- One entry of the tool catalog: name, declared properties, required keys. -/
structure ToolSchema where
  name : String
  properties : List PropSchema
  required : List String
deriving DecidableEq

/-- Shorthand for an unconstrained string property. -/
def strProp (k : String) : PropSchema := ⟨k, .string, none, none, none⟩

/-- Shorthand for a bounded number property. -/
def numProp (k : String) (lo hi : Int) : PropSchema :=
  ⟨k, .number, none, some lo, some hi⟩

/-- Shorthand for an unconstrained number property. -/
def numPropFree (k : String) : PropSchema := ⟨k, .number, none, none, none⟩

/-- Shorthand for a boolean property. -/
def boolProp (k : String) : PropSchema := ⟨k, .boolean, none, none, none⟩

/-- Shorthand for a string-array property. -/
def arrProp (k : String) : PropSchema := ⟨k, .array, none, none, none⟩

/-- Shorthand for an enumerated string property. -/
def enumProp (k : String) (es : List String) : PropSchema :=
  ⟨k, .string, some es, none, none⟩

/-- The declared schema of `search_papers` (lines 358-406): note
`maxResults` is declared with `minimum: 1, maximum: 100`. -/
def searchPapersSchema : ToolSchema :=
  ⟨"search_papers",
   [strProp "query",
    enumProp "platform"
      ["arxiv", "webofscience", "pubmed", "wos", "biorxiv", "medrxiv",
       "semantic", "iacr", "googlescholar", "scholar", "scihub",
       "sciencedirect", "springer", "wiley", "scopus", "all"],
    numProp "maxResults" 1 100,
    strProp "year", strProp "author", strProp "journal", strProp "category",
    numPropFree "days", boolProp "fetchDetails", arrProp "fieldsOfStudy",
    enumProp "sortBy" ["relevance", "date", "citations"],
    enumProp "sortOrder" ["asc", "desc"]],
   ["query"]⟩

/-- The advertised tool catalog `TOOLS` (lines 345-773). -/
def TOOLS : List ToolSchema :=
  [⟨"debug_pubmed_test",
    [strProp "query", numProp "maxResults" 1 5], ["query"]⟩,
   searchPapersSchema,
   ⟨"search_arxiv",
    [strProp "query", numProp "maxResults" 1 50, strProp "category",
     strProp "author"], ["query"]⟩,
   ⟨"search_webofscience",
    [strProp "query", numProp "maxResults" 1 50, strProp "year",
     strProp "author", strProp "journal"], ["query"]⟩,
   ⟨"search_pubmed",
    [strProp "query", numProp "maxResults" 1 100, strProp "year",
     strProp "author", strProp "journal", arrProp "publicationType"],
    ["query"]⟩,
   ⟨"search_biorxiv",
    [strProp "query", numProp "maxResults" 1 100, numPropFree "days"],
    ["query"]⟩,
   ⟨"search_medrxiv",
    [strProp "query", numProp "maxResults" 1 100, numPropFree "days"],
    ["query"]⟩,
   ⟨"search_semantic_scholar",
    [strProp "query", numProp "maxResults" 1 100, strProp "year",
     arrProp "fieldsOfStudy"], ["query"]⟩,
   ⟨"search_iacr",
    [strProp "query", numProp "maxResults" 1 50, boolProp "fetchDetails"],
    ["query"]⟩,
   ⟨"download_paper",
    [strProp "paperId",
     enumProp "platform"
       ["arxiv", "biorxiv", "medrxiv", "semantic", "iacr", "scihub",
        "springer", "wiley"],
     strProp "savePath"], ["paperId", "platform"]⟩,
   ⟨"search_google_scholar",
    [strProp "query", numProp "maxResults" 1 20, numPropFree "yearLow",
     numPropFree "yearHigh", strProp "author"], ["query"]⟩,
   ⟨"get_paper_by_doi",
    [strProp "doi", enumProp "platform" ["arxiv", "webofscience", "all"]],
    ["doi"]⟩,
   ⟨"search_scihub",
    [strProp "doiOrUrl", boolProp "downloadPdf", strProp "savePath"],
    ["doiOrUrl"]⟩,
   ⟨"check_scihub_mirrors", [boolProp "forceCheck"], []⟩,
   ⟨"get_platform_status", [], []⟩,
   ⟨"search_sciencedirect",
    [strProp "query", numProp "maxResults" 1 100, strProp "year",
     strProp "author", strProp "journal", boolProp "openAccess"],
    ["query"]⟩,
   ⟨"search_springer",
    [strProp "query", numProp "maxResults" 1 100, strProp "year",
     strProp "author", strProp "journal", strProp "subject",
     boolProp "openAccess", enumProp "type" ["Journal", "Book", "Chapter"]],
    ["query"]⟩,
   ⟨"search_wiley",
    [strProp "query", numProp "maxResults" 1 100, strProp "year",
     strProp "author", strProp "journal", strProp "subject",
     boolProp "openAccess"], ["query"]⟩,
   ⟨"search_scopus",
    [strProp "query", numProp "maxResults" 1 25, strProp "year",
     strProp "author", strProp "journal", strProp "affiliation",
     strProp "subject", boolProp "openAccess",
     enumProp "documentType" ["ar", "cp", "re", "bk", "ch"]], ["query"]⟩]

/-- The tool names advertised by `tools/list`. -/
def advertisedToolNames : List String := TOOLS.map ToolSchema.name

/-- Whether a value conforms to one declared property schema. -/
def valueMatches (q : PropSchema) (v : JsonValue) : Bool :=
  (match q.jtype, v with
   | .string, .str _ => true
   | .number, .num _ => true
   | .boolean, .bool _ => true
   | .array, .strArr _ => true
   | _, _ => false) &&
  (match q.enums, v with
   | none, _ => true
   | some es, .str s => es.contains s
   | some _, _ => false) &&
  (match q.minimum, v with
   | none, _ => true
   | some lo, .num n => lo ≤ n
   | some _, _ => true) &&
  (match q.maximum, v with
   | none, _ => true
   | some hi, .num n => n ≤ hi
   | some _, _ => true)

/-- Modelled from the spec: schema validation of tool arguments.  The source
repository declares the schemas (in `TOOLS`) but contains no validation code
in the tools/call handler; this decision procedure formalises the
specification's description of a validation pass — required fields present,
and every provided value of a declared property of the right type, inside the
enumeration, and within the numeric bounds. -/
def argsConformToSchema (schema : ToolSchema) (args : Args) : Bool :=
  schema.required.all
    (fun k => (args.find? (fun p => p.1 == k)).isSome) &&
  args.all (fun p =>
    match schema.properties.find? (fun q => q.key == p.1) with
    | none => true
    | some q => valueMatches q p.2)

/-! ## tools/call dispatch (server.ts lines 808-1437)

Each `case` of the switch is a function returning `Except String String ×
List BackendOp`: the `Except` carries a thrown error message or the returned
content text (no case of the switch sets `isError`; only the surrounding
`catch` does), and the list records the awaited backend operations in order.
Content text is rendered with the simplified serializer `jsonArr`; counts and
the verbatim error-message strings of the source are preserved. -/

/-- Switch `case 'debug_pubmed_test'` (lines 822-845): constructs a fresh
`PubMedSearcher` (instance identity `freshPubmedSearcher`, distinct from the
registry's `pubmedSearcher`) and searches it inside an inner try/catch that
returns debug text on both paths — this case never throws. -/
def caseDebugPubmedTest (env : BackendEnv) (args : Args) :
    Except String String × List BackendOp :=
  let query := getArg args "query"
  let maxResults := getArgD args "maxResults" (.num 2)
  let opts : JsObject := [("maxResults", maxResults)]
  match env.search "freshPubmedSearcher" query (some opts) with
  | .ok rs =>
    (.ok ("DEBUG PUBMED TEST Query: " ++ query.display ++ " Results: " ++
          toString rs.length), [.search "freshPubmedSearcher" query (some opts)])
  | .error e =>
    (.ok ("DEBUG PUBMED ERROR Query: " ++ query.display ++ " Error: " ++ e),
     [.search "freshPubmedSearcher" query (some opts)])

/-- The `searchOptions` object of `case 'search_papers'` (line 851). -/
def searchPapersOptions (args : Args) : JsObject :=
  [("maxResults", getArgD args "maxResults" (.num 10)),
   ("year", getArg args "year"),
   ("author", getArg args "author"),
   ("sortBy", getArgD args "sortBy" (.str "relevance")),
   ("sortOrder", getArgD args "sortOrder" (.str "desc"))]

/-- The result text of `case 'search_papers'` (line 889). -/
def searchPapersFoundText (dicts : List String) : String :=
  "Found " ++ toString dicts.length ++ " papers.\\n\\n" ++ jsonArr dicts

/-- Switch `case 'search_papers'` (lines 847-892).  With `platform: 'all'` (the
default) one platform is drawn from `availablePlatforms` via `Math.random()`
(`env.randomIndex`); on its failure arXiv is tried with the same query and
options; if that also fails the empty result list is reported normally.
With a named platform, an unknown name throws `Unsupported platform` and a
backend failure propagates. -/
def caseSearchPapers (env : BackendEnv) (args : Args) :
    Except String String × List BackendOp :=
  let query := getArg args "query"
  let platform := getArgD args "platform" (.str "all")
  let opts := searchPapersOptions args
  if platform == .str "all" then
    let randomPlatform := availablePlatforms.getD env.randomIndex ""
    match lookupSearcher (.str randomPlatform) with
    | none =>
      (.error "TypeError: Cannot read properties of undefined", [])
    | some inst =>
      match env.search inst query (some opts) with
      | .ok rs =>
        (.ok (searchPapersFoundText (rs.map Paper.dict)),
         [.search inst query (some opts)])
      | .error _ =>
        match env.search "arxivSearcher" query (some opts) with
        | .ok rs =>
          (.ok (searchPapersFoundText (rs.map Paper.dict)),
           [.search inst query (some opts),
            .search "arxivSearcher" query (some opts)])
        | .error _ =>
          (.ok (searchPapersFoundText []),
           [.search inst query (some opts),
            .search "arxivSearcher" query (some opts)])
  else
    match lookupSearcher platform with
    | none => (.error ("Unsupported platform: " ++ platform.display), [])
    | some inst =>
      match env.search inst query (some opts) with
      | .ok rs =>
        (.ok (searchPapersFoundText (rs.map Paper.dict)),
         [.search inst query (some opts)])
      | .error e => (.error e, [.search inst query (some opts)])

/-- Shared shape of the simple single-backend search cases: build the result
text from a label on success, propagate a thrown backend error. -/
def simpleSearchCase (env : BackendEnv) (inst : String) (label : String)
    (query : JsonValue) (opts : JsObject) :
    Except String String × List BackendOp :=
  match env.search inst query (some opts) with
  | .ok rs =>
    (.ok ("Found " ++ toString rs.length ++ " " ++ label ++
          " papers.\\n\\n" ++ jsonArr (rs.map Paper.dict)),
     [.search inst query (some opts)])
  | .error e => (.error e, [.search inst query (some opts)])

/-- Switch `case 'search_arxiv'` (lines 894-914). -/
def caseSearchArxiv (env : BackendEnv) (args : Args) :
    Except String String × List BackendOp :=
  simpleSearchCase env "arxivSearcher" "arXiv" (getArg args "query")
    [("maxResults", getArgD args "maxResults" (.num 10)),
     ("category", getArg args "category"),
     ("author", getArg args "author")]

/-- Switch `case 'search_webofscience'` (lines 916-941): throws when
`process.env.WOS_API_KEY` is falsy, before any backend call. -/
def caseSearchWebofscience (env : BackendEnv) (args : Args) :
    Except String String × List BackendOp :=
  if !envTruthy env "WOS_API_KEY" then
    (.error ("Web of Science API key not configured. " ++
             "Please set WOS_API_KEY environment variable."), [])
  else
    simpleSearchCase env "wosSearcher" "Web of Science" (getArg args "query")
      [("maxResults", getArgD args "maxResults" (.num 10)),
       ("year", getArg args "year"),
       ("author", getArg args "author"),
       ("journal", getArg args "journal")]

/-- Switch `case 'search_pubmed'` (lines 943-998): the result text also reports the
API-key and rate-limiter status. -/
def caseSearchPubmed (env : BackendEnv) (args : Args) :
    Except String String × List BackendOp :=
  let query := getArg args "query"
  let opts : JsObject :=
    [("maxResults", getArgD args "maxResults" (.num 10)),
     ("year", getArg args "year"),
     ("author", getArg args "author"),
     ("journal", getArg args "journal"),
     ("publicationType", getArg args "publicationType")]
  match env.search "pubmedSearcher" query (some opts) with
  | .ok rs =>
    let apiKeyStatus :=
      if env.hasApiKey "pubmedSearcher" then "configured" else "not configured"
    let rateLimit :=
      if env.hasApiKey "pubmedSearcher" then "10 requests/second"
      else "3 requests/second"
    (.ok ("Found " ++ toString rs.length ++ " PubMed papers.\\n\\n" ++
          "API Status: " ++ apiKeyStatus ++ " (" ++ rateLimit ++ ")" ++
          "\\nRate Limiter: " ++
          toString (env.rateAvailable "pubmedSearcher") ++ "/" ++
          toString (env.rateMax "pubmedSearcher") ++ " tokens available" ++
          "\\n\\n" ++ jsonArr (rs.map Paper.dict)),
     [.search "pubmedSearcher" query (some opts)])
  | .error e => (.error e, [.search "pubmedSearcher" query (some opts)])

/-- Switch `case 'search_biorxiv'` (lines 1000-1019). -/
def caseSearchBiorxiv (env : BackendEnv) (args : Args) :
    Except String String × List BackendOp :=
  simpleSearchCase env "biorxivSearcher" "bioRxiv" (getArg args "query")
    [("maxResults", getArgD args "maxResults" (.num 10)),
     ("days", getArg args "days")]

/-- Switch `case 'search_medrxiv'` (lines 1021-1040). -/
def caseSearchMedrxiv (env : BackendEnv) (args : Args) :
    Except String String × List BackendOp :=
  simpleSearchCase env "medrxivSearcher" "medRxiv" (getArg args "query")
    [("maxResults", getArgD args "maxResults" (.num 10)),
     ("days", getArg args "days")]

/-- Switch `case 'search_semantic_scholar'` (lines 1042-1067). -/
def caseSearchSemanticScholar (env : BackendEnv) (args : Args) :
    Except String String × List BackendOp :=
  simpleSearchCase env "semanticSearcher" "Semantic Scholar"
    (getArg args "query")
    [("maxResults", getArgD args "maxResults" (.num 10)),
     ("year", getArg args "year"),
     ("fieldsOfStudy", getArg args "fieldsOfStudy")]

/-- Switch `case 'search_iacr'` (lines 1069-1088). -/
def caseSearchIacr (env : BackendEnv) (args : Args) :
    Except String String × List BackendOp :=
  simpleSearchCase env "iacrSearcher" "IACR ePrint" (getArg args "query")
    [("maxResults", getArgD args "maxResults" (.num 10)),
     ("fetchDetails", getArg args "fetchDetails")]

/-- Switch `case 'download_paper'` (lines 1090-1111): unknown platform and the
capability gate `getCapabilities().download` both throw before the download
is attempted. -/
def caseDownloadPaper (env : BackendEnv) (args : Args) :
    Except String String × List BackendOp :=
  let paperId := getArg args "paperId"
  let platform := getArg args "platform"
  let savePath := getArgD args "savePath" (.str "./downloads")
  match lookupSearcher platform with
  | none =>
    (.error ("Unsupported platform for download: " ++ platform.display), [])
  | some inst =>
    if !(env.capabilities inst).download then
      (.error ("Platform " ++ platform.display ++
               " does not support PDF download"), [])
    else
      match env.downloadPdf inst paperId [("savePath", savePath)] with
      | .ok fp =>
        (.ok ("PDF downloaded successfully to: " ++ fp),
         [.downloadPdf inst paperId [("savePath", savePath)]])
      | .error e =>
        (.error e, [.downloadPdf inst paperId [("savePath", savePath)]])

/-- Switch `case 'search_google_scholar'` (lines 1113-1144). -/
def caseSearchGoogleScholar (env : BackendEnv) (args : Args) :
    Except String String × List BackendOp :=
  simpleSearchCase env "googleScholarSearcher" "Google Scholar"
    (getArg args "query")
    [("maxResults", getArgD args "maxResults" (.num 10)),
     ("yearLow", getArg args "yearLow"),
     ("yearHigh", getArg args "yearHigh"),
     ("author", getArg args "author")]

/-- The `platform === 'all'` loop of `case 'get_paper_by_doi'` (lines
1151-1164): iterates `Object.entries(currentSearchers)` in insertion order,
skipping only the key `'wos'` (the `'scholar'` alias is not skipped); each
lookup is wrapped in its own try/catch, so backend errors are swallowed. -/
def doiLoop (env : BackendEnv) (doi : JsonValue) :
    List (String × String) → List String × List BackendOp
  | [] => ([], [])
  | (name, inst) :: rest =>
    if name == "wos" then doiLoop env doi rest
    else
      let tail := doiLoop env doi rest
      match env.getPaperByDoi inst doi with
      | .ok (some p) => (p.dict :: tail.1, .getPaperByDoi inst doi :: tail.2)
      | .ok none => (tail.1, .getPaperByDoi inst doi :: tail.2)
      | .error _ => (tail.1, .getPaperByDoi inst doi :: tail.2)

/-- The result text of `case 'get_paper_by_doi'` (lines 1178-1192). -/
def doiResultText (doi : JsonValue) (results : List String) : String :=
  if results.length == 0 then "No paper found with DOI: " ++ doi.display
  else
    "Found " ++ toString results.length ++ " paper(s) with DOI " ++
    doi.display ++ ":\\n\\n" ++ jsonArr results

/-- Switch `case 'get_paper_by_doi'` (lines 1146-1193). -/
def caseGetPaperByDoi (env : BackendEnv) (args : Args) :
    Except String String × List BackendOp :=
  let doi := getArg args "doi"
  let platform := getArgD args "platform" (.str "all")
  if platform == .str "all" then
    let (results, ops) := doiLoop env doi builtSearchers
    (.ok (doiResultText doi results), ops)
  else
    match lookupSearcher platform with
    | none => (.error ("Unsupported platform: " ++ platform.display), [])
    | some inst =>
      match env.getPaperByDoi inst doi with
      | .error e => (.error e, [.getPaperByDoi inst doi])
      | .ok none => (.ok (doiResultText doi []), [.getPaperByDoi inst doi])
      | .ok (some p) =>
        (.ok (doiResultText doi [p.dict]), [.getPaperByDoi inst doi])

/-- Switch `case 'search_scihub'` (lines 1195-1232): `search` is called without an
options argument; the PDF is downloaded only when `downloadPdf` and the found
paper's `pdfUrl` are both truthy, and a download failure is reported inside a
normal result. -/
def caseSearchScihub (env : BackendEnv) (args : Args) :
    Except String String × List BackendOp :=
  let doiOrUrl := getArg args "doiOrUrl"
  let downloadPdf := getArgD args "downloadPdf" (.bool false)
  let savePath := getArgD args "savePath" (.str "./downloads")
  match env.search "sciHubSearcher" doiOrUrl none with
  | .error e => (.error e, [.search "sciHubSearcher" doiOrUrl none])
  | .ok [] =>
    (.ok ("No paper found on Sci-Hub for: " ++ doiOrUrl.display),
     [.search "sciHubSearcher" doiOrUrl none])
  | .ok (paper :: _) =>
    let base := "Found paper on Sci-Hub:\n\n" ++ paper.dict
    if downloadPdf.truthy && paper.pdfUrl.truthy then
      match env.downloadPdf "sciHubSearcher" doiOrUrl
          [("savePath", savePath)] with
      | .ok fp =>
        (.ok (base ++ "\n\nPDF downloaded successfully to: " ++ fp),
         [.search "sciHubSearcher" doiOrUrl none,
          .downloadPdf "sciHubSearcher" doiOrUrl [("savePath", savePath)]])
      | .error e =>
        (.ok (base ++ "\n\nFailed to download PDF: " ++ e),
         [.search "sciHubSearcher" doiOrUrl none,
          .downloadPdf "sciHubSearcher" doiOrUrl [("savePath", savePath)]])
    else (.ok base, [.search "sciHubSearcher" doiOrUrl none])

/-- Switch `case 'check_scihub_mirrors'` (lines 1234-1251). -/
def caseCheckScihubMirrors (env : BackendEnv) (args : Args) :
    Except String String × List BackendOp :=
  let forceCheck := getArgD args "forceCheck" (.bool false)
  let text := "Sci-Hub Mirror Status:\n\n" ++ jsonArr env.mirrorStatuses
  if forceCheck.truthy then
    match env.forceHealthCheck with
    | .error e => (.error e, [.forceHealthCheck "sciHubSearcher"])
    | .ok _ => (.ok text, [.forceHealthCheck "sciHubSearcher"])
  else (.ok text, [])

/-- Switch `case 'search_sciencedirect'` (lines 1253-1279). -/
def caseSearchSciencedirect (env : BackendEnv) (args : Args) :
    Except String String × List BackendOp :=
  if !envTruthy env "ELSEVIER_API_KEY" then
    (.error ("Elsevier API key not configured. " ++
             "Please set ELSEVIER_API_KEY environment variable."), [])
  else
    simpleSearchCase env "scienceDirectSearcher" "ScienceDirect"
      (getArg args "query")
      [("maxResults", getArgD args "maxResults" (.num 10)),
       ("year", getArg args "year"),
       ("author", getArg args "author"),
       ("journal", getArg args "journal"),
       ("openAccess", getArg args "openAccess")]

/-- Switch `case 'search_springer'` (lines 1281-1309). -/
def caseSearchSpringer (env : BackendEnv) (args : Args) :
    Except String String × List BackendOp :=
  if !envTruthy env "SPRINGER_API_KEY" then
    (.error ("Springer API key not configured. " ++
             "Please set SPRINGER_API_KEY environment variable."), [])
  else
    simpleSearchCase env "springerSearcher" "Springer" (getArg args "query")
      [("maxResults", getArgD args "maxResults" (.num 10)),
       ("year", getArg args "year"),
       ("author", getArg args "author"),
       ("journal", getArg args "journal"),
       ("subject", getArg args "subject"),
       ("openAccess", getArg args "openAccess"),
       ("type", getArg args "type")]

/-- Switch `case 'search_wiley'` (lines 1311-1338). -/
def caseSearchWiley (env : BackendEnv) (args : Args) :
    Except String String × List BackendOp :=
  if !envTruthy env "WILEY_TDM_TOKEN" then
    (.error ("Wiley TDM token not configured. " ++
             "Please set WILEY_TDM_TOKEN environment variable."), [])
  else
    simpleSearchCase env "wileySearcher" "Wiley" (getArg args "query")
      [("maxResults", getArgD args "maxResults" (.num 10)),
       ("year", getArg args "year"),
       ("author", getArg args "author"),
       ("journal", getArg args "journal"),
       ("subject", getArg args "subject"),
       ("openAccess", getArg args "openAccess")]

/-- Switch `case 'search_scopus'` (lines 1340-1369). -/
def caseSearchScopus (env : BackendEnv) (args : Args) :
    Except String String × List BackendOp :=
  if !envTruthy env "ELSEVIER_API_KEY" then
    (.error ("Elsevier API key not configured. " ++
             "Please set ELSEVIER_API_KEY environment variable."), [])
  else
    simpleSearchCase env "scopusSearcher" "Scopus" (getArg args "query")
      [("maxResults", getArgD args "maxResults" (.num 10)),
       ("year", getArg args "year"),
       ("author", getArg args "author"),
       ("journal", getArg args "journal"),
       ("affiliation", getArg args "affiliation"),
       ("subject", getArg args "subject"),
       ("openAccess", getArg args "openAccess"),
       ("documentType", getArg args "documentType")]

/-- One rendered entry of the `get_platform_status` report. -/
def statusLine (name status : String) : String := name ++ ": " ++ status

/-- The registry loop of `case 'get_platform_status'` (lines 1374-1407):
iterates `Object.entries(currentSearchers)` skipping both alias keys `'wos'`
and `'scholar'`; `validateApiKey` is awaited only when the capability record
requires a key and one is present, and a validation throw aborts the whole
case (it is not caught locally). -/
def statusLoop (env : BackendEnv) :
    List (String × String) → Except String (List String) × List BackendOp
  | [] => (.ok [], [])
  | (name, inst) :: rest =>
    if name == "wos" || name == "scholar" then statusLoop env rest
    else
      let caps := env.capabilities inst
      if caps.requiresApiKey && env.hasApiKey inst then
        match env.validateApiKey inst with
        | .error e => (.error e, [.validateApiKey inst])
        | .ok b =>
          match statusLoop env rest with
          | (.error e, ops) => (.error e, .validateApiKey inst :: ops)
          | (.ok lines, ops) =>
            (.ok (statusLine name (if b then "valid" else "invalid") :: lines),
             .validateApiKey inst :: ops)
      else
        let status := if caps.requiresApiKey then "missing" else "not_required"
        match statusLoop env rest with
        | (.error e, ops) => (.error e, ops)
        | (.ok lines, ops) => (.ok (statusLine name status :: lines), ops)

/-- Switch `case 'get_platform_status'` (lines 1371-1415). -/
def caseGetPlatformStatus (env : BackendEnv) (_args : Args) :
    Except String String × List BackendOp :=
  match statusLoop env builtSearchers with
  | (.error e, ops) => (.error e, ops)
  | (.ok lines, ops) => (.ok ("Platform Status:\n\n" ++ jsonArr lines), ops)

/-- The tool names with a `case` in the tools/call switch, in source order. -/
def handledCaseNames : List String :=
  ["debug_pubmed_test", "search_papers", "search_arxiv",
   "search_webofscience", "search_pubmed", "search_biorxiv",
   "search_medrxiv", "search_semantic_scholar", "search_iacr",
   "download_paper", "search_google_scholar", "get_paper_by_doi",
   "search_scihub", "check_scihub_mirrors", "search_sciencedirect",
   "search_springer", "search_wiley", "search_scopus",
   "get_platform_status"]

/-- The switch of the tools/call handler (lines 821-1420): route by tool
name; the `default` case (lines 1417-1419) throws `Unknown tool`. -/
def switchCases (env : BackendEnv) (name : String) (args : Args) :
    Except String String × List BackendOp :=
  if name = "debug_pubmed_test" then caseDebugPubmedTest env args
  else if name = "search_papers" then caseSearchPapers env args
  else if name = "search_arxiv" then caseSearchArxiv env args
  else if name = "search_webofscience" then caseSearchWebofscience env args
  else if name = "search_pubmed" then caseSearchPubmed env args
  else if name = "search_biorxiv" then caseSearchBiorxiv env args
  else if name = "search_medrxiv" then caseSearchMedrxiv env args
  else if name = "search_semantic_scholar" then
    caseSearchSemanticScholar env args
  else if name = "search_iacr" then caseSearchIacr env args
  else if name = "download_paper" then caseDownloadPaper env args
  else if name = "search_google_scholar" then caseSearchGoogleScholar env args
  else if name = "get_paper_by_doi" then caseGetPaperByDoi env args
  else if name = "search_scihub" then caseSearchScihub env args
  else if name = "check_scihub_mirrors" then caseCheckScihubMirrors env args
  else if name = "search_sciencedirect" then caseSearchSciencedirect env args
  else if name = "search_springer" then caseSearchSpringer env args
  else if name = "search_wiley" then caseSearchWiley env args
  else if name = "search_scopus" then caseSearchScopus env args
  else if name = "get_platform_status" then caseGetPlatformStatus env args
  else (.error ("Unknown tool: " ++ name), [])

/-- The result envelope of a tools/call: one text content block plus the
optional `isError` flag. -/
structure Envelope where
  text : String
  isError : Bool
deriving DecidableEq

/-- One `logToolResponse(name, success, duration, errorMessage)` record
(line 1435). -/
structure LogEntry where
  tool : String
  success : Bool
  duration : Nat
deriving DecidableEq

/-- The tools/call request handler (lines 808-1437): runs the switch inside
`try`/`catch`/`finally`.  A thrown error becomes an `isError` envelope whose
text is `Error executing tool \x27name\x27: message` with the
`'Unknown error occurred'` fallback for an empty message; the `finally`
records duration and success via `logToolResponse` on every path.  Totality
of this function is the model of "never throws past its own boundary". -/
def callToolHandler (env : BackendEnv) (name : String) (args : Args)
    (duration : Nat) : Envelope × List BackendOp × List LogEntry :=
  match switchCases env name args with
  | (.ok text, ops) => (⟨text, false⟩, ops, [⟨name, true, duration⟩])
  | (.error msg, ops) =>
    (⟨"Error executing tool \x27" ++ name ++ "\x27: " ++
      (if msg.isEmpty then "Unknown error occurred" else msg), true⟩,
     ops, [⟨name, false, duration⟩])

/-- The platform drawn by the `search_papers` all-platforms branch for the
ambient random draw of `env` (line 856). -/
def pickedPlatform (env : BackendEnv) : String :=
  availablePlatforms.getD env.randomIndex ""

/-- The instance the drawn platform resolves to in the registry. -/
def pickedInstance (env : BackendEnv) : String :=
  (lookupSearcher (.str (pickedPlatform env))).getD ""

/-! ## HTTP router (http.createServer handler, server.ts lines 1465-1611)

The branches that respond synchronously, as a function from the classified
request to the response.  The streamable-HTTP delegate and `JSON.parse` are
external collaborators passed as parameters. -/

/-- The relevant classification of an inbound HTTP request: method, path,
whether the URL query carries `sessionId`, and the accumulated body. -/
structure HttpRequest where
  method : String
  pathname : String
  hasSessionIdParam : Bool
  body : String
deriving DecidableEq

/-- The response the router commits: status code, `Content-Type`, body. -/
structure HttpResponse where
  status : Nat
  contentType : String
  body : String
deriving DecidableEq

/-- A one-field JSON error body as the router writes it. -/
def jsonErrorBody (msg : String) : String :=
  "\x7b\"error\":\"" ++ msg ++ "\"\x7d"

/-- The `/health` payload (lines 1488-1494). -/
def healthBody : String :=
  "\x7b\"status\":\"healthy\",\"name\":\"paper-search-mcp-nodejs\"," ++
  "\"version\":\"0.3.0\",\"transport\":\"SSE+StreamableHTTP\"\x7d"

/-- The HTTP request handler (lines 1465-1611), branch for branch:
`OPTIONS` pre-flight; `GET /health`; the protocol endpoint `/mcp` or `/sse`
(delegated when `sessionId` is present, SSE stream on `GET`, accept-and-ack
on `POST` with parse failure giving 400, any other method 400); and the
final default `404 text/plain Not Found` (lines 1607-1610). -/
def handleHttp (req : HttpRequest) (delegate : Except String HttpResponse)
    (parse : String → Option JsonValue) : HttpResponse :=
  if req.method = "OPTIONS" then ⟨200, "", ""⟩
  else if req.pathname = "/health" ∧ req.method = "GET" then
    ⟨200, "application/json", healthBody⟩
  else if req.pathname = "/mcp" ∨ req.pathname = "/sse" then
    if req.hasSessionIdParam then
      match delegate with
      | .ok r => r
      | .error e => ⟨500, "application/json", jsonErrorBody e⟩
    else if req.method = "GET" then ⟨200, "text/event-stream", ""⟩
    else if req.method = "POST" then
      match parse req.body with
      | some _ =>
        ⟨202, "application/json", "\x7b\"status\":\"accepted\"\x7d"⟩
      | none =>
        ⟨400, "application/json", jsonErrorBody "Invalid JSON-RPC message"⟩
    else
      ⟨400, "application/json",
       "\x7b\"error\":\"Bad Request\",\"message\":\"Please use POST " ++
       "with JSON body or GET for SSE stream\"\x7d"⟩
  else ⟨404, "text/plain", "Not Found"⟩

/-! ## Concrete instances used by the witnesses and counterexamples -/

/-- A stub backend environment: every search succeeds with zero results, no
credentials configured, every capability record allows download and needs no
key. -/
def stubEnv : BackendEnv where
  search := fun _ _ _ => .ok []
  getPaperByDoi := fun _ _ => .ok none
  downloadPdf := fun _ _ _ => .ok "./downloads/paper.pdf"
  validateApiKey := fun _ => .ok true
  forceHealthCheck := .ok ()
  hasApiKey := fun _ => false
  capabilities := fun _ => ⟨true, false⟩
  envVars := fun _ => none
  mirrorStatuses := []
  rateAvailable := fun _ => 0
  rateMax := fun _ => 0
  randomIndex := 0

/-- A stub environment whose every search throws, with the random draw
landing on index 2 (`pubmed`). -/
def allFailEnv : BackendEnv :=
  { stubEnv with search := fun _ _ _ => .error "network down",
                 randomIndex := 2 }

/-- Arguments carrying only a query, so `platform` defaults to `'all'`. -/
def qOnlyArgs : Args := [("query", .str "q")]

/-- The arguments of the C2 failing input: a known tool with `maxResults`
above the declared maximum of 100. -/
def oversizedArgs : Args :=
  [("query", .str "quantum"), ("platform", .str "arxiv"),
   ("maxResults", .num 1000)]

/-- A three-connection transport state. -/
def threeConns : SSETransport := ⟨[1, 2, 3], []⟩

/-- A per-connection write that throws exactly on connection 2. -/
def failOn2 : Nat → Except String Unit :=
  fun c => if c = 2 then .error "EPIPE" else .ok ()

/-- A per-connection write that always succeeds. -/
def connWriteOk : Nat → Except String Unit := fun _ => .ok ()

/-- A per-message replay write that always succeeds. -/
def msgWriteOk : String → Except String Unit := fun _ => .ok ()

/-- An unmatched request: `GET /nope`. -/
def unmatchedGetReq : HttpRequest := ⟨"GET", "/nope", false, ""⟩

/-- Another unmatched request: `POST /health` (the health route requires
`GET`). -/
def unmatchedPostReq : HttpRequest := ⟨"POST", "/health", false, ""⟩

/-- A stub delegate response for router theorems. -/
def stubDelegate : Except String HttpResponse := .ok ⟨200, "", ""⟩

/-- A stub `JSON.parse` that always fails (never reached in the theorems it
appears in). -/
def stubParse : String → Option JsonValue := fun _ => none

/-! ## Helper lemmas -/

/-- While the connection set is empty, each `send` appends its message to the
queue and the connection set stays empty. -/
theorem sendAll_empty (write : Nat → Except String Unit) :
    ∀ (ms : List String) (q : List String),
      sendAll ⟨[], q⟩ write ms = ⟨[], q ++ ms⟩ := by
  intro ms
  induction ms with
  | nil => intro q; simp [sendAll]
  | cons m ms ih =>
    intro q
    have hstep : (SSETransport.send ⟨[], q⟩ write m).1 = ⟨[], q ++ [m]⟩ := rfl
    calc sendAll ⟨[], q⟩ write (m :: ms)
        = sendAll (SSETransport.send ⟨[], q⟩ write m).1 write ms := rfl
      _ = sendAll ⟨[], q ++ [m]⟩ write ms := by rw [hstep]
      _ = ⟨[], (q ++ [m]) ++ ms⟩ := ih (q ++ [m])
      _ = ⟨[], q ++ m :: ms⟩ := by simp

/-- Replay delivers exactly the messages whose write succeeds, in order. -/
theorem replayQueue_filter (write : String → Except String Unit)
    (q : List String) : replayQueue write q = q.filter (replayOk write) := by
  induction q with
  | nil => rfl
  | cons m q ih =>
    cases h : write m with
    | ok u => simp [replayQueue, h, List.filter_cons, replayOk, ih]
    | error e => simp [replayQueue, h, List.filter_cons, replayOk, ih]

/-- Replay with a write that succeeds on every queued message delivers the
whole queue unchanged. -/
theorem replayQueue_all_ok (write : String → Except String Unit)
    (q : List String) (hok : ∀ m ∈ q, write m = Except.ok ()) :
    replayQueue write q = q := by
  induction q with
  | nil => rfl
  | cons m q ih =>
    have hm := hok m (by simp)
    simp [replayQueue, hm, ih (fun m hmem => hok m (by simp [hmem]))]

/-- The fan-out loop keeps (and delivers to) exactly the connections whose
write succeeds, preserving order. -/
theorem sendLoop_filter (write : Nat → Except String Unit)
    (l : List Nat) :
    sendLoop write l = (l.filter (writeOk write), l.filter (writeOk write)) := by
  induction l with
  | nil => rfl
  | cons c l ih =>
    cases h : write c with
    | ok u => simp [sendLoop, h, List.filter_cons, writeOk, ih]
    | error e => simp [sendLoop, h, List.filter_cons, writeOk, ih]

/-- The `Unknown tool` message is never the empty string, so the
`error.message` fallback of the catch block does not fire on it. -/
theorem unknownToolMsg_ne_empty (s : String) : ("Unknown tool: " ++ s) ≠ "" := by
  intro h
  have h2 := congrArg (fun t => t.data.length) h
  simp only [String.data_append, List.length_append] at h2
  rw [show ("Unknown tool: ".data.length) = 14 from rfl,
      show (("" : String).data.length) = 0 from rfl] at h2
  omega

/-- Boolean form of `unknownToolMsg_ne_empty`. -/
theorem unknownToolMsg_isEmpty (s : String) :
    ("Unknown tool: " ++ s).isEmpty = false := by
  rw [Bool.eq_false_iff]
  intro h
  exact unknownToolMsg_ne_empty s ((String.isEmpty_iff _).mp h)

/-! ## Claim theorems -/

/-- C1: messages sent while the open-connection set is empty are appended to
the pending queue in send order; the first attach afterwards writes every
queued message, in order, to the new connection, leaves the queue empty, and
a subsequent attach delivers nothing further from the queue. -/
theorem queued_messages_drain_once (ms : List String)
    (writeS : Nat → Except String Unit) (writeA : String → Except String Unit)
    (c : Nat) (hok : ∀ m ∈ ms, writeA m = Except.ok ()) :
    (sendAll SSETransport.init writeS ms).messageQueue = ms ∧
    (sendAll SSETransport.init writeS ms).sseConnections = [] ∧
    ((sendAll SSETransport.init writeS ms).addSSEConnection writeA c).2 = ms ∧
    ((sendAll SSETransport.init writeS ms).addSSEConnection writeA
        c).1.messageQueue = [] ∧
    ∀ (writeB : String → Except String Unit) (c' : Nat),
      (((sendAll SSETransport.init writeS ms).addSSEConnection writeA
          c).1.addSSEConnection writeB c').2 = [] := by
  have h : sendAll SSETransport.init writeS ms = ⟨[], ms⟩ := by
    simpa using sendAll_empty writeS ms []
  rw [h]
  refine ⟨rfl, rfl, ?_, rfl, ?_⟩
  · simpa [SSETransport.addSSEConnection] using replayQueue_all_ok writeA ms hok
  · intro writeB c'
    rfl

/-- C1 witness: two concrete messages queued with no connection open are
delivered once, in order, by the first attach. -/
theorem queued_messages_drain_once_witness :
    (∀ m ∈ ["hello", "world"], msgWriteOk m = Except.ok ()) ∧
    ((sendAll SSETransport.init connWriteOk ["hello", "world"]).messageQueue =
        ["hello", "world"] ∧
     (sendAll SSETransport.init connWriteOk
        ["hello", "world"]).sseConnections = [] ∧
     ((sendAll SSETransport.init connWriteOk
        ["hello", "world"]).addSSEConnection msgWriteOk 0).2 =
        ["hello", "world"] ∧
     ((sendAll SSETransport.init connWriteOk
        ["hello", "world"]).addSSEConnection msgWriteOk 0).1.messageQueue =
        [] ∧
     ∀ (writeB : String → Except String Unit) (c' : Nat),
       (((sendAll SSETransport.init connWriteOk
           ["hello", "world"]).addSSEConnection msgWriteOk
           0).1.addSSEConnection writeB c').2 = []) :=
  ⟨fun _ _ => rfl,
   queued_messages_drain_once ["hello", "world"] connWriteOk msgWriteOk 0
     (fun _ _ => rfl)⟩

/-- C5: with a non-empty connection set, `send` removes exactly the
connections whose write fails, still writes the message to every other open
connection (in order), and leaves the queue untouched; totality of `send`
models that the failure does not raise to the caller. -/
theorem send_isolates_failing_connection (t : SSETransport)
    (write : Nat → Except String Unit) (m : String)
    (h : t.sseConnections ≠ []) :
    (t.send write m).1.sseConnections =
      t.sseConnections.filter (writeOk write) ∧
    (t.send write m).2 = t.sseConnections.filter (writeOk write) ∧
    (t.send write m).1.messageQueue = t.messageQueue ∧
    ∀ c ∈ t.sseConnections, writeOk write c = true → c ∈ (t.send write m).2 := by
  have hlen : t.sseConnections.length > 0 := List.length_pos.mpr h
  refine ⟨?_, ?_, ?_, ?_⟩ <;>
    simp only [SSETransport.send, if_pos hlen, sendLoop_filter]
  intro c hc hok
  exact List.mem_filter.mpr ⟨hc, hok⟩

/-- C5 witness: a three-connection set where the write to connection 2
throws: 2 is removed, 1 and 3 still receive the message. -/
theorem send_isolates_failing_connection_witness :
    threeConns.sseConnections ≠ [] ∧
    ((threeConns.send failOn2 "m").1.sseConnections =
       threeConns.sseConnections.filter (writeOk failOn2) ∧
     (threeConns.send failOn2 "m").2 =
       threeConns.sseConnections.filter (writeOk failOn2) ∧
     (threeConns.send failOn2 "m").1.messageQueue = threeConns.messageQueue ∧
     ∀ c ∈ threeConns.sseConnections, writeOk failOn2 c = true →
       c ∈ (threeConns.send failOn2 "m").2) :=
  ⟨by decide, send_isolates_failing_connection threeConns failOn2 "m"
     (by decide)⟩

/-- C10: during attach replay, a failing per-message write only drops that
message; the new connection stays in the set, previously open connections
stay, replay continues with the remaining messages, and the queue is cleared
regardless of failures. -/
theorem attach_replay_isolates_failures (t : SSETransport)
    (write : String → Except String Unit) (c : Nat) :
    c ∈ (t.addSSEConnection write c).1.sseConnections ∧
    (∀ c' ∈ t.sseConnections,
        c' ∈ (t.addSSEConnection write c).1.sseConnections) ∧
    (t.addSSEConnection write c).1.messageQueue = [] ∧
    (t.addSSEConnection write c).2 = t.messageQueue.filter (replayOk write) := by
  unfold SSETransport.addSSEConnection
  refine ⟨?_, ?_, rfl, replayQueue_filter write t.messageQueue⟩
  · by_cases hc : c ∈ t.sseConnections <;> simp [hc]
  · intro c' hc'
    by_cases hc : c ∈ t.sseConnections <;> simp [hc, hc']

/-- C8: `initializeSearchers` builds the registry on the first call and every
subsequent call returns the already-built registry object with unchanged
state and without re-running construction. -/
theorem initializeSearchers_runs_once (st : Option (List (String × String))) :
    initializeSearchers (initializeSearchers st).2.1 =
      ((initializeSearchers st).1, (initializeSearchers st).2.1, false) ∧
    (initializeSearchers st).2.1 = some (initializeSearchers st).1 ∧
    (initializeSearchers none).1 = builtSearchers ∧
    (initializeSearchers none).2.2 = true := by
  cases st <;> simp [initializeSearchers]

/-- C4: for every tool name and any arguments, the tools/call handler returns
an envelope (it is a total function) and `logToolResponse` is recorded
exactly once, with the success flag matching whether the envelope carries the
error flag, and with the measured duration. -/
theorem callTool_envelope_and_logs_once (env : BackendEnv) (name : String)
    (args : Args) (duration : Nat) :
    (callToolHandler env name args duration).2.2 =
      [⟨name, !(callToolHandler env name args duration).1.isError,
        duration⟩] := by
  rcases h : switchCases env name args with ⟨e, ops⟩
  cases e <;> simp [callToolHandler, h]

/-- C7: invoking a tool name outside the advertised catalog yields an
`isError` envelope whose text names the unknown tool, with no backend
operation invoked; and every advertised name has exactly one `case` in the
switch (the handled-name list covers the catalog, has no duplicates, and
contains nothing undeclared). -/
theorem unknown_tool_rejected_without_backend (name : String)
    (hname : name ∉ advertisedToolNames)
    (env : BackendEnv) (args : Args) (duration : Nat) :
    (callToolHandler env name args duration).1 =
      ⟨"Error executing tool \x27" ++ name ++ "\x27: " ++
        ("Unknown tool: " ++ name), true⟩ ∧
    (callToolHandler env name args duration).2.1 = [] ∧
    handledCaseNames.Nodup ∧ advertisedToolNames.Nodup ∧
    (∀ n ∈ advertisedToolNames, n ∈ handledCaseNames) ∧
    (∀ n ∈ handledCaseNames, n ∈ advertisedToolNames) := by
  have hsub : ∀ n ∈ handledCaseNames, n ∈ advertisedToolNames := by decide
  have hnot : name ∉ handledCaseNames := fun hmem => hname (hsub name hmem)
  simp only [handledCaseNames, List.mem_cons, List.not_mem_nil, or_false] at hnot
  push_neg at hnot
  obtain ⟨h1, h2, h3, h4, h5, h6, h7, h8, h9, h10, h11, h12, h13, h14, h15,
    h16, h17, h18, h19⟩ := hnot
  have hsw : switchCases env name args = (.error ("Unknown tool: " ++ name), []) := by
    simp only [switchCases, if_neg h1, if_neg h2, if_neg h3, if_neg h4,
      if_neg h5, if_neg h6, if_neg h7, if_neg h8, if_neg h9, if_neg h10,
      if_neg h11, if_neg h12, if_neg h13, if_neg h14, if_neg h15, if_neg h16,
      if_neg h17, if_neg h18, if_neg h19]
  refine ⟨?_, ?_, by decide, by decide, by decide, hsub⟩
  · simp [callToolHandler, hsw, unknownToolMsg_isEmpty]
  · simp [callToolHandler, hsw]

/-- C7 witness: the undeclared name `frobnicate` is rejected without touching
a backend. -/
theorem unknown_tool_rejected_without_backend_witness :
    ("frobnicate" ∉ advertisedToolNames) ∧
    ((callToolHandler stubEnv "frobnicate" [] 0).1 =
      ⟨"Error executing tool \x27" ++ "frobnicate" ++ "\x27: " ++
        ("Unknown tool: " ++ "frobnicate"), true⟩ ∧
     (callToolHandler stubEnv "frobnicate" [] 0).2.1 = [] ∧
     handledCaseNames.Nodup ∧ advertisedToolNames.Nodup ∧
     (∀ n ∈ advertisedToolNames, n ∈ handledCaseNames) ∧
     (∀ n ∈ handledCaseNames, n ∈ advertisedToolNames)) :=
  ⟨by decide,
   unknown_tool_rejected_without_backend "frobnicate" (by decide) stubEnv [] 0⟩

/-- C2 (code vs. spec): a `search_papers` call whose `maxResults` (1000)
violates the declared maximum (100) is **not** rejected: the schema declares
the bound and the arguments fail validation, yet the handler passes the
oversized value straight into the backend search call and returns a normal
(non-error) envelope — no invalid-arguments envelope exists in the code. -/
theorem search_papers_skips_declared_schema :
    searchPapersSchema ∈ TOOLS ∧
    searchPapersSchema.name = "search_papers" ∧
    argsConformToSchema searchPapersSchema oversizedArgs = false ∧
    searchPapersOptions oversizedArgs =
      [("maxResults", .num 1000), ("year", .undefined),
       ("author", .undefined), ("sortBy", .str "relevance"),
       ("sortOrder", .str "desc")] ∧
    (callToolHandler stubEnv "search_papers" oversizedArgs 0).2.1 =
      [.search "arxivSearcher" (.str "quantum")
        (some (searchPapersOptions oversizedArgs))] ∧
    (callToolHandler stubEnv "search_papers" oversizedArgs 0).1.isError =
      false :=
  ⟨by decide, rfl, by decide, rfl, rfl, rfl⟩

/-- The `get_paper_by_doi` all-platforms loop performs one lookup per
registry entry whose key is not `'wos'` — including the `'scholar'` alias
entry. -/
theorem doiLoop_ops (env : BackendEnv) (doi : JsonValue) :
    ∀ l : List (String × String),
      (doiLoop env doi l).2 =
        (l.filter (fun p => p.1 != "wos")).map
          (fun p => BackendOp.getPaperByDoi p.2 doi) := by
  intro l
  induction l with
  | nil => rfl
  | cons hd tl ih =>
    obtain ⟨name, inst⟩ := hd
    cases hn : name == "wos" with
    | true => simp [doiLoop, hn, List.filter_cons, bne, ih]
    | false =>
      cases hp : env.getPaperByDoi inst doi with
      | error e => simp [doiLoop, hn, hp, List.filter_cons, bne, ih]
      | ok o =>
        cases o <;> simp [doiLoop, hn, hp, List.filter_cons, bne, ih]

/-- C3 (code vs. spec): the `search_papers` and `get_platform_status`
enumerations exclude both alias keys, so no instance occurs twice there; but
the `get_paper_by_doi` all-platforms loop skips only `'wos'`, so the
`googleScholarSearcher` instance — reachable both as `googlescholar` and as
the un-skipped alias `scholar` — is looked up twice in every such call. -/
theorem get_paper_by_doi_all_hits_scholar_twice :
    (availablePlatforms.map
        (fun n => (lookupSearcher (.str n)).getD "")).Nodup ∧
    ((builtSearchers.filter
        (fun p => p.1 != "wos" && p.1 != "scholar")).map Prod.snd).Nodup ∧
    (statusLoop stubEnv builtSearchers).1 =
      .ok ((builtSearchers.filter
        (fun p => p.1 != "wos" && p.1 != "scholar")).map
          (fun p => statusLine p.1 "not_required")) ∧
    ∀ (env : BackendEnv) (doi : JsonValue),
      (doiLoop env doi builtSearchers).2 =
        [.getPaperByDoi "arxivSearcher" doi,
         .getPaperByDoi "wosSearcher" doi,
         .getPaperByDoi "pubmedSearcher" doi,
         .getPaperByDoi "biorxivSearcher" doi,
         .getPaperByDoi "medrxivSearcher" doi,
         .getPaperByDoi "semanticSearcher" doi,
         .getPaperByDoi "iacrSearcher" doi,
         .getPaperByDoi "googleScholarSearcher" doi,
         .getPaperByDoi "googleScholarSearcher" doi,
         .getPaperByDoi "sciHubSearcher" doi,
         .getPaperByDoi "scienceDirectSearcher" doi,
         .getPaperByDoi "springerSearcher" doi,
         .getPaperByDoi "wileySearcher" doi,
         .getPaperByDoi "scopusSearcher" doi] ∧
      ((doiLoop env doi builtSearchers).2).count
        (BackendOp.getPaperByDoi "googleScholarSearcher" doi) = 2 := by
  refine ⟨by decide, by decide, rfl, ?_⟩
  intro env doi
  have hops := doiLoop_ops env doi builtSearchers
  constructor
  · rw [hops]; rfl
  · rw [hops]
    simp [builtSearchers, List.count_cons]

/-- C9 counterexample: the unmatched request `GET /nope` is answered with
status 404 but a `text/plain` body `Not Found` — not a JSON error body. -/
theorem unmatched_route_returns_plain_text :
    handleHttp unmatchedGetReq stubDelegate stubParse =
      ⟨404, "text/plain", "Not Found"⟩ ∧
    (handleHttp unmatchedGetReq stubDelegate stubParse).contentType ≠
      "application/json" :=
  ⟨rfl, by decide⟩

/-- C9 (amended): every request matching none of the defined routes (not
`OPTIONS`, not `GET /health`, not the protocol endpoint `/mcp` or `/sse`) is
answered with status 404 and the plain-text body `Not Found`. -/
theorem unmatched_route_404_not_found (req : HttpRequest)
    (delegate : Except String HttpResponse)
    (parse : String → Option JsonValue)
    (h1 : req.method ≠ "OPTIONS")
    (h2 : ¬(req.pathname = "/health" ∧ req.method = "GET"))
    (h3 : req.pathname ≠ "/mcp") (h4 : req.pathname ≠ "/sse") :
    handleHttp req delegate parse = ⟨404, "text/plain", "Not Found"⟩ := by
  simp only [handleHttp, if_neg h1, if_neg h2,
    if_neg (fun h => Or.elim h h3 h4)]

/-- C9 witness: `POST /health` matches no route (the health route requires
`GET`) and gets the plain 404. -/
theorem unmatched_route_404_not_found_witness :
    (unmatchedPostReq.method ≠ "OPTIONS" ∧
     ¬(unmatchedPostReq.pathname = "/health" ∧
        unmatchedPostReq.method = "GET") ∧
     unmatchedPostReq.pathname ≠ "/mcp" ∧
     unmatchedPostReq.pathname ≠ "/sse") ∧
    handleHttp unmatchedPostReq stubDelegate stubParse =
      ⟨404, "text/plain", "Not Found"⟩ :=
  ⟨⟨by decide, by decide, by decide, by decide⟩,
   unmatched_route_404_not_found unmatchedPostReq stubDelegate stubParse
     (by decide) (by decide) (by decide) (by decide)⟩

/-- C6: in the `search_papers` all-platforms branch, for any in-range random
draw, the drawn platform is one of the non-alias platforms and its search is
invoked first; if it throws, arXiv is invoked with the same query and option
object; and if the fallback throws too, the call returns the normal
zero-papers envelope instead of an error envelope. -/
theorem search_papers_all_random_fallback (env : BackendEnv) (args : Args)
    (duration : Nat)
    (hidx : env.randomIndex < availablePlatforms.length)
    (hplat : getArgD args "platform" (.str "all") = .str "all") :
    (pickedPlatform env ∈ availablePlatforms ∧
     "wos" ∉ availablePlatforms ∧ "scholar" ∉ availablePlatforms) ∧
    (callToolHandler env "search_papers" args duration).2.1.head? =
      some (.search (pickedInstance env) (getArg args "query")
        (some (searchPapersOptions args))) ∧
    ∀ e, env.search (pickedInstance env) (getArg args "query")
        (some (searchPapersOptions args)) = .error e →
      ((callToolHandler env "search_papers" args duration).2.1 =
        [.search (pickedInstance env) (getArg args "query")
           (some (searchPapersOptions args)),
         .search "arxivSearcher" (getArg args "query")
           (some (searchPapersOptions args))] ∧
       ∀ e', env.search "arxivSearcher" (getArg args "query")
           (some (searchPapersOptions args)) = .error e' →
         (callToolHandler env "search_papers" args duration).1 =
           ⟨searchPapersFoundText [], false⟩) := by
  have hmem : pickedPlatform env ∈ availablePlatforms := by
    unfold pickedPlatform
    rw [List.getD_eq_getElem availablePlatforms "" hidx]
    exact List.getElem_mem hidx
  have hsomeAll : ∀ p ∈ availablePlatforms,
      (lookupSearcher (.str p)).isSome := by decide
  obtain ⟨inst, hinst⟩ := Option.isSome_iff_exists.mp (hsomeAll _ hmem)
  have hpe : pickedInstance env = inst := by
    unfold pickedInstance
    rw [hinst]
    rfl
  have hinst' :
      lookupSearcher (.str (availablePlatforms.getD env.randomIndex "")) =
        some inst := hinst
  have hsw : switchCases env "search_papers" args =
      caseSearchPapers env args := rfl
  have hbranch :
      caseSearchPapers env args =
        (match env.search inst (getArg args "query")
            (some (searchPapersOptions args)) with
         | .ok rs =>
           (.ok (searchPapersFoundText (rs.map Paper.dict)),
            [.search inst (getArg args "query")
               (some (searchPapersOptions args))])
         | .error _ =>
           match env.search "arxivSearcher" (getArg args "query")
               (some (searchPapersOptions args)) with
           | .ok rs =>
             (.ok (searchPapersFoundText (rs.map Paper.dict)),
              [.search inst (getArg args "query")
                 (some (searchPapersOptions args)),
               .search "arxivSearcher" (getArg args "query")
                 (some (searchPapersOptions args))])
           | .error _ =>
             (.ok (searchPapersFoundText []),
              [.search inst (getArg args "query")
                 (some (searchPapersOptions args)),
               .search "arxivSearcher" (getArg args "query")
                 (some (searchPapersOptions args))])) := by
    simp only [caseSearchPapers, hplat, beq_self_eq_true, if_true, hinst']
  rw [hpe]
  refine ⟨⟨hmem, by decide, by decide⟩, ?_, ?_⟩
  · cases hs : env.search inst (getArg args "query")
        (some (searchPapersOptions args)) with
    | ok rs => simp [callToolHandler, hsw, hbranch, hs]
    | error e =>
      cases hs2 : env.search "arxivSearcher" (getArg args "query")
          (some (searchPapersOptions args)) with
      | ok rs => simp [callToolHandler, hsw, hbranch, hs, hs2]
      | error e2 => simp [callToolHandler, hsw, hbranch, hs, hs2]
  · intro e hs
    cases hs2 : env.search "arxivSearcher" (getArg args "query")
        (some (searchPapersOptions args)) with
    | ok rs =>
      refine ⟨by simp [callToolHandler, hsw, hbranch, hs, hs2], ?_⟩
      intro e' hs3
      cases hs3
    | error e2 =>
      refine ⟨by simp [callToolHandler, hsw, hbranch, hs, hs2], ?_⟩
      intro e' hs3
      simp [callToolHandler, hsw, hbranch, hs, hs2]

/-- C6 witness: with the random draw landing on index 2 (`pubmed`) and every
search failing, the call falls back to arXiv and reports zero papers without
an error envelope. -/
theorem search_papers_all_random_fallback_witness :
    (allFailEnv.randomIndex < availablePlatforms.length ∧
     getArgD qOnlyArgs "platform" (.str "all") = .str "all") ∧
    ((pickedPlatform allFailEnv ∈ availablePlatforms ∧
      "wos" ∉ availablePlatforms ∧ "scholar" ∉ availablePlatforms) ∧
     (callToolHandler allFailEnv "search_papers" qOnlyArgs 0).2.1.head? =
       some (.search (pickedInstance allFailEnv) (getArg qOnlyArgs "query")
         (some (searchPapersOptions qOnlyArgs))) ∧
     ∀ e, allFailEnv.search (pickedInstance allFailEnv)
         (getArg qOnlyArgs "query")
         (some (searchPapersOptions qOnlyArgs)) = .error e →
       ((callToolHandler allFailEnv "search_papers" qOnlyArgs 0).2.1 =
         [.search (pickedInstance allFailEnv) (getArg qOnlyArgs "query")
            (some (searchPapersOptions qOnlyArgs)),
          .search "arxivSearcher" (getArg qOnlyArgs "query")
            (some (searchPapersOptions qOnlyArgs))] ∧
        ∀ e', allFailEnv.search "arxivSearcher" (getArg qOnlyArgs "query")
            (some (searchPapersOptions qOnlyArgs)) = .error e' →
          (callToolHandler allFailEnv "search_papers" qOnlyArgs 0).1 =
            ⟨searchPapersFoundText [], false⟩)) :=
  ⟨⟨by decide, rfl⟩,
   search_papers_all_random_fallback allFailEnv qOnlyArgs 0 (by decide) rfl⟩

end PaperMcp
